import Mathlib

/-!
Shallow embedding of `hydromt_delft3dfm/dflowfm.py` (class DFlowFMModel),
restricted to the parts needed by the verified claims: branch bookkeeping
(`set_branches`, `opensystem`, `closedsystem`, the id generation of
`_setup_branches`), the mesh/link administration (`set_mesh`,
`set_link1d2d`, `setup_link1d2d`), the cross-section dispatch of
`_setup_crosssections`, the structure snapping of `_setup_1dstructures`,
the manhole bed-level pipeline of `setup_manholes`, and the time-window
checks of `setup_1dboundary` / `setup_2dboundary`.

DataFrames are embedded as lists of records; geometry is reduced to the
integer-coordinate points and squared distances the claims need; levels
and chainages are rationals.  Logging is modelled as lists of message
strings carried in the result; a Python exception is an `Except.error`.
-/

namespace DflowFM

/-- Row of the branches GeoDataFrame: only the columns the claims touch. -/
structure BranchRow where
  branchid : String
  branchtype : String
  deriving Repr, DecidableEq

/-- Embedding of a (Geo)DataFrame of branches: the set of column names is
tracked explicitly because `set_branches` tests for the presence of the
`branchtype` column, and rows carry the values used by the filters. -/
structure GeoDF where
  columns : List String
  rows : List BranchRow
  deriving Repr, DecidableEq

/-- Model state for the branch administration: `_branches` (None before any
branch is set) and the `geoms` mapping (an association list, later entries
shadow earlier ones on lookup after `set_geoms`). -/
structure BranchState where
  _branches : Option GeoDF
  geoms : List (String × GeoDF)
  logged_errors : List String
  deriving Repr, DecidableEq

/-- Embeds the `branches` property: returns `_branches` when set, otherwise
an empty GeoDataFrame (no columns, no rows), as `gpd.GeoDataFrame()`. -/
def branches_prop (st : BranchState) : GeoDF :=
  match st._branches with
  | some df => df
  | none => { columns := [], rows := [] }

/-- Embeds `set_geoms(gdf, name)`: stores `gdf` under `name`, replacing any
previous entry of that name. -/
def set_geoms (geoms : List (String × GeoDF)) (gdf : GeoDF) (name : String) :
    List (String × GeoDF) :=
  (name, gdf) :: geoms.filter (fun p => p.1 ≠ name)

/-- Lookup in `geoms`. -/
def geoms_get (geoms : List (String × GeoDF)) (name : String) : Option GeoDF :=
  (geoms.find? (fun p => p.1 = name)).map (fun p => p.2)

/-- Embeds the `opensystem` property: when the branch set is nonempty, the
rows whose `branchtype` is `river` or `channel`; otherwise an empty frame. -/
def opensystem (st : BranchState) : GeoDF :=
  let br := branches_prop st
  if 0 < br.rows.length then
    { br with
      rows := br.rows.filter
        (fun b => b.branchtype = "river" ∨ b.branchtype = "channel") }
  else { columns := [], rows := [] }

/-- Embeds the `closedsystem` property: when the branch set is nonempty, the
rows whose `branchtype` is `pipe` or `tunnel`; otherwise an empty frame. -/
def closedsystem (st : BranchState) : GeoDF :=
  let br := branches_prop st
  if 0 < br.rows.length then
    { br with
      rows := br.rows.filter
        (fun b => b.branchtype = "pipe" ∨ b.branchtype = "tunnel") }
  else { columns := [], rows := [] }

/-- Embeds `set_branches_component(name)`: filters the current branches on
`branchtype == name` (a KeyError is raised when the current branches frame
has no `branchtype` column) and stores the result in geoms under `name + "s"`
when nonempty. Returns the updated geoms. -/
def set_branches_component (st : BranchState) (name : String) :
    Except String (List (String × GeoDF)) :=
  if "branchtype" ∈ (branches_prop st).columns then
    if 0 < ((branches_prop st).rows.filter (fun b => b.branchtype = name)).length then
      Except.ok (set_geoms st.geoms
        { columns := (branches_prop st).columns,
          rows := (branches_prop st).rows.filter (fun b => b.branchtype = name) }
        (name ++ "s"))
    else
      Except.ok st.geoms
  else
    Except.error "KeyError: branchtype"

/-- Embeds `set_branches(branches)`: `_branches` is replaced only when the
new frame has a `branchtype` column (otherwise an error message is logged and
`_branches` is kept); then the river/channel/pipe component geoms are
refreshed from the (possibly unchanged) current branches, and finally
`geoms["branches"]` is overwritten with the *input* frame in either case. -/
def set_branches (st : BranchState) (newdf : GeoDF) : Except String BranchState :=
  let st1 : BranchState :=
    if "branchtype" ∈ newdf.columns then
      { st with _branches := some newdf }
    else
      { st with logged_errors := st.logged_errors ++
          ["branchtype column absent from the new branches, could not update."] }
  match set_branches_component st1 "river" with
  | Except.error e => Except.error e
  | Except.ok g1 =>
    match set_branches_component { st1 with geoms := g1 } "channel" with
    | Except.error e => Except.error e
    | Except.ok g2 =>
      match set_branches_component { st1 with geoms := g2 } "pipe" with
      | Except.error e => Except.error e
      | Except.ok g3 =>
        Except.ok { st1 with geoms := set_geoms g3 newdf "branches" }

/-- Embeds the id generation of `_setup_branches` for inputs lacking a
`branchid` column: ids `"{br_type}_{i}"` for `i` running over
`np.arange(len(self.branches) + 1, len(self.branches) + len(gdf_br) + 1)`,
where `existLen` is the number of rows of the current branches frame and
`n` the number of new features. -/
def _setup_branches_gen_ids (br_type : String) (existLen n : Nat) : List String :=
  (List.range n).map (fun j => br_type ++ "_" ++ Nat.repr (existLen + 1 + j))

/-! Mesh and 1D2D link administration.  An `xr.Dataset`/`xu.UgridDataset` is
embedded as a list of named data variables (payload abstracted to an integer
tag) together with a list of dimension names. -/

/-- Embedding of an xarray/xugrid dataset: named data variables (payload
abstracted) and dimension names. -/
structure UDataset where
  dataVars : List (String × Int)
  dims : List String
  deriving Repr, DecidableEq

/-- Names of the data variables of a dataset. -/
def var_names (d : UDataset) : List String := d.dataVars.map Prod.fst

/-- Link variables dropped and re-added by `set_link1d2d`. -/
def link1d2d_var_names : List String :=
  ["link1d2d", "link1d2d_ids", "link1d2d_long_names", "link1d2d_contact_type"]

/-- Link dimensions dropped by `set_link1d2d`. -/
def link1d2d_dim_names : List String := ["nLink1D2D_edge", "Two"]

/-- Embeds `set_link1d2d(link1d2d)`: when a `link1d2d` variable is already
present in the mesh, the four link variables and the two link dimensions are
dropped first, then the new link dataset is merged in. -/
def set_link1d2d (mesh : UDataset) (link1d2d : UDataset) : UDataset :=
  let mesh1 :=
    if "link1d2d" ∈ var_names mesh then
      { dataVars := mesh.dataVars.filter (fun v => ¬ v.1 ∈ link1d2d_var_names),
        dims := mesh.dims.filter (fun d => ¬ d ∈ link1d2d_dim_names) }
    else mesh
  { dataVars := mesh1.dataVars ++ link1d2d.dataVars,
    dims := mesh1.dims ++ link1d2d.dims }

/-- Embeds the overridden `set_mesh(data, name, grid_name, overwrite_grid)`.
The call to `super().set_mesh` belongs to the external hydromt core (out of
scope per the spec) and is passed in as `superSetMesh`; after it, the wrapper
only emits a warning asking the caller to re-run `setup_link1d2d` when a grid
named `mesh1d` or `mesh2d` is overwritten while `link1d2d` is a data variable
of the mesh, and (for `mesh1d`) refreshes the boundaries geom, which does not
touch the mesh.  Returns the new mesh and the warnings issued. -/
def set_mesh (superSetMesh : UDataset → UDataset) (mesh : UDataset)
    (grid_name : String) (overwrite_grid : Bool) : UDataset × List String :=
  let mesh1 := superSetMesh mesh
  if overwrite_grid ∧ "link1d2d" ∈ var_names mesh1 ∧
      (grid_name = "mesh1d" ∨ grid_name = "mesh2d") then
    (mesh1, [grid_name ++ " grid was updated in self.mesh. Re-run setup_link1d2d method to update the model 1D2D links."])
  else
    (mesh1, [])

/-- State of the model mesh as seen by `setup_link1d2d`: the grid names in
`self.mesh_names`, the mesh dataset, and `self.mesh_grids["mesh2d"].area.max()`
(`none` when the `mesh2d` grid is absent, in which case the lookup raises a
KeyError). -/
structure FMMesh where
  mesh_names : List String
  mesh : UDataset
  mesh2d_max_face_area : Option ℚ
  deriving Repr, DecidableEq

/-- Result of a link-generation workflow call: the produced link dataset and
the number of generated links `len(link1d2d["link1d2d"])`. -/
structure LinkDataset where
  data : UDataset
  n_links : Nat
  deriving Repr, DecidableEq

/-- Embeds `setup_link1d2d(link_direction, link_type)`.  The three
`workflows.links1d2d_add_links_*` generators are code of this repository that
is not under src/ and are passed in as functions of the mesh state.  The
missing-mesh check only logs an error message and execution continues; for
`link_direction = "1d_to_2d"` the subsequent `self.mesh_grids["mesh2d"]`
lookup raises a KeyError when `mesh2d` is absent; for an unrecognised
direction or type the local `link1d2d` is never assigned and the final
`len(link1d2d["link1d2d"])` raises a NameError.  A nonempty generated link
set is stored via `set_link1d2d`; an empty one only logs a warning.
Returns the new state, the logged errors and the logged warnings. -/
def setup_link1d2d
    (links_1d_to_2d links_2d_to_1d_embedded links_2d_to_1d_lateral :
      FMMesh → LinkDataset)
    (st : FMMesh) (link_direction link_type : String) :
    Except String (FMMesh × List String × List String) :=
  let errs :=
    if "mesh1d" ∈ st.mesh_names ∧ "mesh2d" ∈ st.mesh_names then []
    else ["cannot setup link1d2d: either mesh1d or mesh2d or both do not exist"]
  let gen : Except String (Option LinkDataset) :=
    if link_direction = "1d_to_2d" then
      match st.mesh2d_max_face_area with
      | none => Except.error "KeyError: mesh2d"
      | some _ => Except.ok (some (links_1d_to_2d st))
    else if link_direction = "2d_to_1d" then
      if link_type = "embedded" then Except.ok (some (links_2d_to_1d_embedded st))
      else if link_type = "lateral" then Except.ok (some (links_2d_to_1d_lateral st))
      else Except.ok none
    else Except.ok none
  match gen with
  | Except.error e => Except.error e
  | Except.ok none => Except.error "NameError: name link1d2d is not defined"
  | Except.ok (some ld) =>
    if ld.n_links = 0 then
      Except.ok (st, errs, ["No 1d2d links were generated."])
    else
      Except.ok ({ st with mesh := set_link1d2d st.mesh ld.data }, errs, [])

/-! Cross-section dispatch of `_setup_crosssections`. -/

/-- Embeds the dispatch of `_setup_crosssections(crosssections_fn,
crosssections_type)`: the `branch` path is taken only when
`crosssections_fn is None`; the `xyz` and `point` paths read the file; any
remaining combination falls through to `raise NotImplementedError`.  The
payload of `Except.ok` records which preparation path was taken. -/
def _setup_crosssections_dispatch (crosssections_fn : Option String)
    (crosssections_type : String) : Except String String :=
  if crosssections_fn = none ∧ crosssections_type = "branch" then
    Except.ok "branch"
  else if crosssections_type = "xyz" then
    Except.ok "xyz"
  else if crosssections_type = "point" then
    Except.ok "point"
  else
    Except.error ("Method " ++ crosssections_type ++ " is not implemented.")

/-- Valid enumerated cross-section types per the docstring of
`_setup_crosssections`. -/
def valid_crosssections_types : List String := ["branch", "xyz", "point"]

/-! Structure snapping of `_setup_1dstructures`. -/

/-- Input structure feature after `workflows.find_nearest_branch` (repository
code not under src/).  Modelled from the spec: `branch_hit` is
`some (branch_id, chainage)` for the nearest branch within the snap offset,
and `none` (NaN `branch_offset`) when no branch lies within tolerance. -/
structure StructureFeature where
  structure_id : String
  branch_hit : Option (String × ℚ)
  deriving Repr, DecidableEq

/-- Retained structure row with the derived columns. -/
structure OutStructure where
  structure_id : String
  structure_branchid : String
  structure_chainage : ℚ
  deriving Repr, DecidableEq

/-- Conversion applied to a snapped feature: `structure_branchid` :=
`branch_id` and `structure_chainage` := `branch_offset` of its nearest
branch. -/
def st_of_feature (f : StructureFeature) : Option OutStructure :=
  f.branch_hit.map (fun h =>
    { structure_id := f.structure_id, structure_branchid := h.1,
      structure_chainage := h.2 })

/-- Source local `_old_ids`: the ids of the input features before `dropna`. -/
def snap_old_ids (feats : List StructureFeature) : List String :=
  feats.map (fun f => f.structure_id)

/-- Source local `_new_ids`: the ids of the features retained by `dropna`. -/
def snap_new_ids (feats : List StructureFeature) : List String :=
  (feats.filterMap st_of_feature).map (fun o => o.structure_id)

/-- Embeds step 4 of `_setup_1dstructures`: features not snapped to any
branch (`branch_offset` NaN) are dropped with `dropna`; when the row count
changed, the ids `set(_old_ids) - set(_new_ids)` are logged; when nothing is
retained the function warns and returns `None`; otherwise retained rows get
`structure_branchid`/`structure_chainage`.  Returns the retained frame
(`none` embeds the Python `return None`) and the logged dropped ids. -/
def _setup_1dstructures_snap (feats : List StructureFeature) :
    Option (List OutStructure) × List String :=
  let gdf_st := feats.filterMap st_of_feature
  let dropped :=
    if (snap_old_ids feats).length ≠ (snap_new_ids feats).length then
      (snap_old_ids feats).filter (fun i => ¬ i ∈ snap_new_ids feats)
    else []
  if (snap_new_ids feats).length = 0 then (none, dropped) else (some gdf_st, dropped)

/-- Turns the optional returned frame into its row list (the Python `None`
return carries no structures). -/
def opt_rows (o : Option (List OutStructure)) : List OutStructure :=
  match o with
  | none => []
  | some l => l

/-! Time-window checks of `setup_1dboundary` and `setup_2dboundary`.
Timestamps are embedded as integers (seconds since the reference date). -/

/-- Outcome of `setup_1dboundary` as far as the time-window check goes. -/
structure Boundary1DResult where
  logged_errors : List String
  forcing_set : Bool
  deriving Repr, DecidableEq

/-- Embeds the time handling of `setup_1dboundary`: when a forcing dataset is
given, the code compares `da_bnd.time.values[0]` with `tstart` and
`da_bnd.time.values[-1]` with `tstop`; on mismatch it logs an error message
and continues; in every non-raising case it proceeds to compute the boundary
values and `set_forcing` is reached.  Indexing an empty time axis raises. -/
def setup_1dboundary (da_bnd_times : Option (List Int)) (tstart tstop : Int) :
    Except String Boundary1DResult :=
  match da_bnd_times with
  | none => Except.ok { logged_errors := [], forcing_set := true }
  | some [] => Except.error "IndexError"
  | some (t :: ts) =>
    if t = tstart ∧ (t :: ts).getLast (by simp) = tstop then
      Except.ok { logged_errors := [], forcing_set := true }
    else
      Except.ok
        { logged_errors := ["forcing has different start and end time. Please check the forcing file. support yyyy-mm-dd HH:MM:SS. "],
          forcing_set := true }

/-- Embeds the time handling of `setup_2dboundary` for a timeseries source
whose dates parsed as datetimes (the dtype check is passed): when
`df_bnd.index[-1] - df_bnd.index[0]` is shorter than `tstop - tstart` a
ValueError is raised; otherwise the step continues and the forcing is set
(`Except.ok true`). -/
def setup_2dboundary (df_bnd_times : List Int) (tstart tstop : Int) :
    Except String Bool :=
  match df_bnd_times with
  | [] => Except.error "IndexError"
  | t :: ts =>
    if (t :: ts).getLast (by simp) - t < tstop - tstart then
      Except.error "Time in boundaries_timeseries_fn were shorter than model simulation time. Update the source kwargs in the DataCatalog based on the driver function arguments (eg pandas.read_csv for csv driver)."
    else Except.ok true

/-! Manhole bed levels in `setup_manholes`.  Geometry is reduced to integer
points with squared distances; levels are rationals. -/

/-- Point in the model CRS. -/
abbrev Point := ℤ × ℤ

/-- Squared distance between two points. -/
def distSq (a b : Point) : ℤ := (a.1 - b.1) ^ 2 + (a.2 - b.2) ^ 2

/-- Pipe (closed-system branch) with its invert levels and endpoints. -/
structure Pipe where
  invlev_up : ℚ
  invlev_dn : ℚ
  up : Point
  dn : Point
  deriving Repr, DecidableEq

/-- Generated manhole row: the columns the claim touches. -/
structure Manhole where
  manholeid : String
  pos : Point
  bedlevel : ℚ
  deriving Repr, DecidableEq

/-- Row of the user manholes dataset `manholes_fn` after the
`_allowed_columns` filter, which keeps a `bedlevel` column whenever the user
dataset has one (`bedlevel` is listed in `_allowed_columns`); `none` embeds
an absent bedlevel column. -/
structure UserManhole where
  pos : Point
  bedlevel : Option ℚ
  deriving Repr, DecidableEq

/-- Invert levels of the pipe ends incident to node `p`. -/
def node_invlevs (pipes : List Pipe) (p : Point) : List ℚ :=
  pipes.filterMap (fun pi => if pi.up = p then some pi.invlev_up else none) ++
    pipes.filterMap (fun pi => if pi.dn = p then some pi.invlev_dn else none)

/-- Minimum of a list of levels (the node of a generated manhole has at least
one incident pipe, so the list is never empty there). -/
def min_level (l : List ℚ) : ℚ :=
  match l with
  | [] => 0
  | x :: xs => xs.foldl min x

/-- Modelled from the spec: `workflows.generate_manholes_on_branches` is
repository code that is not under src/.  Per the spec and the docstring of
`setup_manholes`, manholes are generated on the nodes of the pipe/tunnel
network and the `bedlevel` attribute is derived as the minimum invert level
of the connected pipes shifted by `bedlevel_shift`. -/
def generate_manholes_on_branches (pipes : List Pipe) (bedlevel_shift : ℚ) :
    List Manhole :=
  let nodes := ((pipes.map (fun pi => pi.up)) ++ (pipes.map (fun pi => pi.dn))).dedup
  nodes.enum.map (fun ip =>
    { manholeid := "manhole_" ++ Nat.repr ip.1 ++ "_generated",
      pos := ip.2,
      bedlevel := min_level (node_invlevs pipes ip.2) + bedlevel_shift })

/-- Modelled from the documented behaviour of the external
`hydromt.gis_utils.nearest_merge(gdf1, gdf2, max_dist, overwrite=True)`: the
nearest right feature within `max_dist` of a left row, `none` when there is
none within tolerance. -/
def nearest_within (user : List UserManhole) (p : Point) (maxDistSq : ℤ) :
    Option UserManhole :=
  match user.filter (fun u => distSq u.pos p ≤ maxDistSq) with
  | [] => none
  | c :: cs =>
    some (cs.foldl (fun best u =>
      if distSq u.pos p < distSq best.pos p then u else best) c)

/-- Modelled from the documented behaviour of the external
`hydromt.gis_utils.nearest_merge` with `overwrite=True`: every left row whose
nearest right feature lies within `max_dist` has its shared columns
(here: `bedlevel`, kept by `_allowed_columns`) overwritten with the right
values; rows without a match keep their values. -/
def nearest_merge_overwrite (manholes : List Manhole)
    (user : List UserManhole) (maxDistSq : ℤ) : List Manhole :=
  manholes.map (fun m =>
    match nearest_within user m.pos maxDistSq with
    | none => m
    | some u =>
      match u.bedlevel with
      | none => m
      | some b => { m with bedlevel := b })

/-- Embeds the bedlevel pipeline of `setup_manholes(manholes_fn, ...,
bedlevel_shift, ..., snap_offset)`: manholes and bedlevels are generated
from the branches, defaults are merged for the other attributes (which never
touch `bedlevel`: the defaults table carries no bedlevel column), and when a
user dataset is given the generated manholes are overwritten by
`nearest_merge(..., overwrite=True)` within `snap_offset`; the dem step only
touches `streetlevel`. -/
def setup_manholes (pipes : List Pipe)
    (manholes_fn : Option (List UserManhole)) (bedlevel_shift : ℚ)
    (maxDistSq : ℤ) : List Manhole :=
  let manholes := generate_manholes_on_branches pipes bedlevel_shift
  match manholes_fn with
  | none => manholes
  | some user => nearest_merge_overwrite manholes user maxDistSq

/-! Concrete inputs used by the failing-input and witness theorems. -/

/-- Single pipe with both invert levels 2, from node (0,0) to node (10,0). -/
def pipe0 : Pipe := { invlev_up := 2, invlev_dn := 2, up := (0, 0), dn := (10, 0) }

/-- User manhole located exactly on the upstream node, supplying bedlevel 99. -/
def user_manhole0 : UserManhole := { pos := (0, 0), bedlevel := some 99 }

/-- Model state with an empty typed branch frame. -/
def st_empty_branches : BranchState :=
  { _branches := some { columns := ["branchid", "branchtype"], rows := [] },
    geoms := [], logged_errors := [] }

/-- Branch frame with one river branch. -/
def one_river_df : GeoDF :=
  { columns := ["branchid", "branchtype"],
    rows := [{ branchid := "river_1", branchtype := "river" }] }

/-- Branch frame without a branchtype column. -/
def no_branchtype_df : GeoDF :=
  { columns := ["geometry"],
    rows := [{ branchid := "b1", branchtype := "x" }] }

/-- Model state holding the one-river branch frame. -/
def st_one_river : BranchState :=
  { _branches := some one_river_df, geoms := [], logged_errors := [] }

/-- Link generator producing one link (standing in for a
`workflows.links1d2d_add_links_*` call that finds one coupling). -/
def gen_one_link : FMMesh → LinkDataset := fun _ =>
  { data := UDataset.mk [("link1d2d", 0), ("link1d2d_ids", 1),
      ("link1d2d_long_names", 2), ("link1d2d_contact_type", 3)]
      ["nLink1D2D_edge", "Two"],
    n_links := 1 }

/-- Mesh state holding only a 2D grid: `mesh1d` is absent. -/
def st_mesh2d_only : FMMesh :=
  { mesh_names := ["mesh2d"],
    mesh := UDataset.mk [("mesh2d_node_x", 7)] ["nMesh2d_node"],
    mesh2d_max_face_area := some 4 }

/-! Helper lemmas. -/

/-- Storing a geom under a name makes it the value looked up at that name. -/
theorem geoms_get_set_geoms (g : List (String × GeoDF)) (gdf : GeoDF) (name : String) :
    geoms_get (set_geoms g gdf name) name = some gdf := by
  simp [geoms_get, set_geoms, List.find?]

/-- A branch-component refresh succeeds whenever the current branches frame
has a branchtype column. -/
theorem set_branches_component_ok (st : BranchState) (name : String)
    (h : "branchtype" ∈ (branches_prop st).columns) :
    ∃ g, set_branches_component st name = Except.ok g := by
  unfold set_branches_component
  rw [if_pos h]
  split_ifs <;> exact ⟨_, rfl⟩

/-- A retained id comes from an input feature with a snapped branch. -/
theorem snap_new_ids_subset {feats : List StructureFeature} {i : String}
    (hmem : i ∈ snap_new_ids feats) :
    ∃ f ∈ feats, f.structure_id = i ∧ f.branch_hit ≠ none := by
  simp only [snap_new_ids, List.mem_map, List.mem_filterMap, st_of_feature,
    Option.map_eq_some'] at hmem
  obtain ⟨o, ⟨f, hf, a, ha, ho⟩, hid⟩ := hmem
  subst ho
  exact ⟨f, hf, hid, by simp [ha]⟩

/-- Counting identity behind the dropna bookkeeping: with unique ids, the
ids missing from the retained set plus the retained rows account exactly for
the input rows. -/
theorem snap_count (feats : List StructureFeature)
    (hnd : (snap_old_ids feats).Nodup) :
    ((snap_old_ids feats).filter (fun i => ¬ i ∈ snap_new_ids feats)).length +
      (snap_new_ids feats).length = feats.length := by
  induction feats with
  | nil => rfl
  | cons f rest ih =>
    have hold : snap_old_ids (f :: rest) = f.structure_id :: snap_old_ids rest := rfl
    rw [hold] at hnd ⊢
    have hfid : ¬ f.structure_id ∈ snap_old_ids rest := (List.nodup_cons.mp hnd).1
    have hnd2 : (snap_old_ids rest).Nodup := (List.nodup_cons.mp hnd).2
    have hih := ih hnd2
    cases hhit : f.branch_hit with
    | none =>
      have hnew : snap_new_ids (f :: rest) = snap_new_ids rest := by
        simp [snap_new_ids, st_of_feature, List.filterMap_cons, hhit]
      rw [hnew]
      have hfn : ¬ f.structure_id ∈ snap_new_ids rest := by
        intro hmem
        obtain ⟨g, hg, hgid, _⟩ := snap_new_ids_subset hmem
        exact hfid (hgid ▸ List.mem_map.mpr ⟨g, hg, rfl⟩)
      rw [List.filter_cons_of_pos (by simpa using hfn)]
      simp only [List.length_cons]
      omega
    | some a =>
      have hnew : snap_new_ids (f :: rest) =
          f.structure_id :: snap_new_ids rest := by
        simp [snap_new_ids, st_of_feature, List.filterMap_cons, hhit]
      rw [hnew]
      rw [List.filter_cons_of_neg (by simp)]
      have hcongr : (snap_old_ids rest).filter
            (fun i => ¬ i ∈ f.structure_id :: snap_new_ids rest) =
          (snap_old_ids rest).filter (fun i => ¬ i ∈ snap_new_ids rest) := by
        apply List.filter_congr
        intro i hi
        have hne : i ≠ f.structure_id := fun he => hfid (he ▸ hi)
        simp [List.mem_cons, hne]
      rw [hcongr]
      simp only [List.length_cons]
      omega

/-- A feature whose snapping failed makes the retained frame strictly
shorter than the input. -/
theorem filterMap_lt_of_none {feats : List StructureFeature}
    {f : StructureFeature} (hf : f ∈ feats) (hnone : st_of_feature f = none) :
    (feats.filterMap st_of_feature).length < feats.length := by
  induction feats with
  | nil => cases hf
  | cons g rest ih =>
    rcases List.mem_cons.mp hf with rfl | hmem
    · rw [List.filterMap_cons_none hnone]
      exact Nat.lt_succ_of_le (List.length_filterMap_le _ _)
    · cases hg : st_of_feature g with
      | none =>
        rw [List.filterMap_cons_none hg]
        exact Nat.lt_succ_of_lt (ih hmem)
      | some o =>
        rw [List.filterMap_cons_some hg]
        simpa using Nat.succ_lt_succ (ih hmem)

/-! Verified claims. -/

/-- C9: `opensystem` returns exactly the branches whose branchtype is river
or channel, `closedsystem` exactly those whose branchtype is pipe or tunnel,
the two results are disjoint, and both are empty frames on an empty branch
set. -/
theorem opensystem_closedsystem_partition (st : BranchState) :
    (∀ b, b ∈ (opensystem st).rows ↔
      b ∈ (branches_prop st).rows ∧
        (b.branchtype = "river" ∨ b.branchtype = "channel")) ∧
    (∀ b, b ∈ (closedsystem st).rows ↔
      b ∈ (branches_prop st).rows ∧
        (b.branchtype = "pipe" ∨ b.branchtype = "tunnel")) ∧
    (∀ b, ¬ (b ∈ (opensystem st).rows ∧ b ∈ (closedsystem st).rows)) ∧
    ((branches_prop st).rows = [] →
      (opensystem st).rows = [] ∧ (closedsystem st).rows = []) := by
  unfold opensystem closedsystem
  by_cases h : 0 < (branches_prop st).rows.length
  · rw [if_pos h, if_pos h]
    refine ⟨fun b => by simp [List.mem_filter], fun b => by simp [List.mem_filter],
      fun b => ?_, fun hnil => by simp [hnil] at h⟩
    rintro ⟨hb1, hb2⟩
    simp only [List.mem_filter, decide_eq_true_eq] at hb1 hb2
    rcases hb1.2 with h1 | h1 <;> rcases hb2.2 with h2 | h2 <;>
      · rw [h1] at h2; exact absurd h2 (by decide)
  · rw [if_neg h, if_neg h]
    have hnil : (branches_prop st).rows = [] := by
      cases hr : (branches_prop st).rows with
      | nil => rfl
      | cons a l => rw [hr] at h; simp at h
    simp [hnil]

/-- C9 witness: on a model state with an empty (but typed) branch frame both
properties return empty frames. -/
theorem opensystem_closedsystem_partition_witness :
    (opensystem st_empty_branches).rows = [] ∧
    (closedsystem st_empty_branches).rows = [] :=
  (opensystem_closedsystem_partition st_empty_branches).2.2.2 rfl

/-- C10: calling `set_branches` with a frame lacking the branchtype column,
on a state whose current branches do have that column, leaves `_branches`
(and hence the `branches` property) at the previous branch set but still
overwrites `geoms["branches"]` with the invalid input frame. -/
theorem set_branches_invalid_branchtype_divergence
    (st : BranchState) (old newdf : GeoDF)
    (h1 : st._branches = some old)
    (h2 : "branchtype" ∈ old.columns)
    (h3 : ¬ "branchtype" ∈ newdf.columns) :
    ∃ st2, set_branches st newdf = Except.ok st2 ∧
      st2._branches = some old ∧
      branches_prop st2 = old ∧
      geoms_get st2.geoms "branches" = some newdf := by
  simp only [set_branches]
  rw [if_neg h3]
  dsimp only
  obtain ⟨g1, hg1⟩ := set_branches_component_ok
    (BranchState.mk st._branches st.geoms (st.logged_errors ++
      ["branchtype column absent from the new branches, could not update."]))
    "river" (by simp [branches_prop, h1, h2])
  rw [hg1]
  dsimp only
  obtain ⟨g2, hg2⟩ := set_branches_component_ok
    (BranchState.mk st._branches g1 (st.logged_errors ++
      ["branchtype column absent from the new branches, could not update."]))
    "channel" (by simp [branches_prop, h1, h2])
  rw [hg2]
  dsimp only
  obtain ⟨g3, hg3⟩ := set_branches_component_ok
    (BranchState.mk st._branches g2 (st.logged_errors ++
      ["branchtype column absent from the new branches, could not update."]))
    "pipe" (by simp [branches_prop, h1, h2])
  rw [hg3]
  exact ⟨_, rfl, h1, by simp [branches_prop, h1], geoms_get_set_geoms _ _ _⟩

/-- C10 witness: a concrete state with one river branch and an input frame
without a branchtype column. -/
theorem set_branches_invalid_branchtype_divergence_witness :
    ∃ st2, set_branches st_one_river no_branchtype_df = Except.ok st2 ∧
      st2._branches = some one_river_df ∧
      branches_prop st2 = one_river_df ∧
      geoms_get st2.geoms "branches" = some no_branchtype_df :=
  set_branches_invalid_branchtype_divergence st_one_river one_river_df
    no_branchtype_df rfl (by decide) (by decide)

/-- C3 counterexample: with one previously added branch whose id is
`pipe_2`, the id generated for one unlabeled pipe feature is again `pipe_2`,
which collides with the existing id (the counter continues from the branch
count, not from the maximum existing id). -/
theorem _setup_branches_gen_ids_collision :
    _setup_branches_gen_ids "pipe" 1 1 = ["pipe_2"] ∧
    ¬ (∀ id ∈ _setup_branches_gen_ids "pipe" 1 1, ¬ id ∈ ["pipe_2"]) := by
  decide

/-- C3 (amended): the ids generated by `_setup_branches` for features
lacking a branchid column are exactly `"{branch_type}_{i}"` for `i` running
from `len(self.branches) + 1` (the count of previously added branches plus
one, not the maximum existing id plus one) to `len(self.branches) + n`. -/
theorem _setup_branches_gen_ids_spec (br_type : String) (existLen n : Nat)
    (id : String) :
    id ∈ _setup_branches_gen_ids br_type existLen n ↔
      ∃ i, existLen + 1 ≤ i ∧ i ≤ existLen + n ∧
        id = br_type ++ "_" ++ Nat.repr i := by
  unfold _setup_branches_gen_ids
  simp only [List.mem_map, List.mem_range]
  constructor
  · rintro ⟨j, hj, rfl⟩
    exact ⟨existLen + 1 + j, by omega, by omega, rfl⟩
  · rintro ⟨i, hi1, hi2, rfl⟩
    refine ⟨i - (existLen + 1), by omega, ?_⟩
    have hi : existLen + 1 + (i - (existLen + 1)) = i := by omega
    rw [hi]

/-- C5: when a `link1d2d` variable already exists in the mesh,
`set_link1d2d` first removes all link variables and their dimensions, so the
link variables stored afterwards are exactly those of the newly supplied
link dataset (full overwrite, never a merge of old and new), and any link
dimension still present comes from the new dataset. -/
theorem set_link1d2d_full_overwrite (mesh link : UDataset)
    (h1 : "link1d2d" ∈ var_names mesh)
    (h2 : ∀ v ∈ link.dataVars, v.1 ∈ link1d2d_var_names) :
    (set_link1d2d mesh link).dataVars.filter
        (fun v => v.1 ∈ link1d2d_var_names) = link.dataVars ∧
    (∀ d ∈ link1d2d_dim_names, d ∈ (set_link1d2d mesh link).dims → d ∈ link.dims) := by
  unfold set_link1d2d
  rw [if_pos h1]
  constructor
  · rw [List.filter_append]
    have hl : (mesh.dataVars.filter (fun v => ¬ v.1 ∈ link1d2d_var_names)).filter
        (fun v => v.1 ∈ link1d2d_var_names) = [] := by
      rw [List.filter_filter]
      apply List.filter_eq_nil_iff.mpr
      intro a _
      by_cases hm : a.1 ∈ link1d2d_var_names <;> simp [hm]
    rw [hl, List.nil_append]
    apply List.filter_eq_self.mpr
    intro a ha
    simpa using h2 a ha
  · intro d hd hmem
    rcases List.mem_append.mp hmem with hin | hin
    · have hnot := List.of_mem_filter hin
      simp only [decide_not, Bool.not_eq_true', decide_eq_false_iff_not] at hnot
      exact absurd hd hnot
    · exact hin

/-- C5 witness: a mesh holding an old link set plus an unrelated variable,
overwritten with a fresh link dataset. -/
theorem set_link1d2d_full_overwrite_witness :
    (∀ v ∈ (UDataset.mk [("link1d2d", 10), ("link1d2d_ids", 11),
        ("link1d2d_long_names", 12), ("link1d2d_contact_type", 13)]
        ["nLink1D2D_edge", "Two"]).dataVars, v.1 ∈ link1d2d_var_names) ∧
    ((set_link1d2d
        (UDataset.mk [("link1d2d", 0), ("link1d2d_ids", 1),
          ("link1d2d_long_names", 2), ("link1d2d_contact_type", 3),
          ("mesh2d_face_x", 7)] ["nLink1D2D_edge", "Two", "nMesh2d_face"])
        (UDataset.mk [("link1d2d", 10), ("link1d2d_ids", 11),
          ("link1d2d_long_names", 12), ("link1d2d_contact_type", 13)]
          ["nLink1D2D_edge", "Two"])).dataVars.filter
        (fun v => v.1 ∈ link1d2d_var_names) =
      [("link1d2d", 10), ("link1d2d_ids", 11), ("link1d2d_long_names", 12),
        ("link1d2d_contact_type", 13)]) :=
  ⟨by decide,
    (set_link1d2d_full_overwrite
      (UDataset.mk [("link1d2d", 0), ("link1d2d_ids", 1),
        ("link1d2d_long_names", 2), ("link1d2d_contact_type", 3),
        ("mesh2d_face_x", 7)] ["nLink1D2D_edge", "Two", "nMesh2d_face"])
      (UDataset.mk [("link1d2d", 10), ("link1d2d_ids", 11),
        ("link1d2d_long_names", 12), ("link1d2d_contact_type", 13)]
        ["nLink1D2D_edge", "Two"])
      (by decide) (by decide)).1⟩

/-- C8: the `set_mesh` override leaves the link1d2d variables exactly as the
core update left them, and (for a grid overwrite of mesh1d or mesh2d with
links present) only issues a warning to re-run `setup_link1d2d`, so links
are never auto-regenerated or deleted by the wrapper; under the spec model
of the external core update (which replaces only the named grid and
preserves unrelated data variables, hypothesis `h`) the stored link
variables are completely unchanged. -/
theorem set_mesh_preserves_link1d2d (superSetMesh : UDataset → UDataset)
    (mesh : UDataset) (grid_name : String) (overwrite_grid : Bool)
    (h : (superSetMesh mesh).dataVars.filter (fun v => v.1 ∈ link1d2d_var_names) =
      mesh.dataVars.filter (fun v => v.1 ∈ link1d2d_var_names)) :
    ((set_mesh superSetMesh mesh grid_name overwrite_grid).1).dataVars.filter
        (fun v => v.1 ∈ link1d2d_var_names) =
      mesh.dataVars.filter (fun v => v.1 ∈ link1d2d_var_names) ∧
    ((set_mesh superSetMesh mesh grid_name overwrite_grid).2 ≠ [] ↔
      (overwrite_grid = true ∧ "link1d2d" ∈ var_names (superSetMesh mesh) ∧
        (grid_name = "mesh1d" ∨ grid_name = "mesh2d"))) := by
  unfold set_mesh
  dsimp only
  split_ifs with hc
  · refine ⟨h, ?_⟩
    constructor
    · intro _
      exact hc
    · intro _
      simp
  · refine ⟨h, ?_⟩
    constructor
    · intro hfalse
      exact absurd rfl hfalse
    · intro hcon
      exact absurd hcon hc

/-- C8 witness: overwriting the mesh2d grid (core update modelled as the
identity on data variables) with links present keeps the link variables and
issues the warning. -/
theorem set_mesh_preserves_link1d2d_witness :
    ((set_mesh id (UDataset.mk [("link1d2d", 0), ("mesh2d_face_x", 7)]
        ["nLink1D2D_edge", "Two"]) "mesh2d" true).1).dataVars.filter
        (fun v => v.1 ∈ link1d2d_var_names) =
      (UDataset.mk [("link1d2d", 0), ("mesh2d_face_x", 7)]
        ["nLink1D2D_edge", "Two"]).dataVars.filter
        (fun v => v.1 ∈ link1d2d_var_names) ∧
    ((set_mesh id (UDataset.mk [("link1d2d", 0), ("mesh2d_face_x", 7)]
        ["nLink1D2D_edge", "Two"]) "mesh2d" true).2 ≠ [] ↔
      (true = true ∧ "link1d2d" ∈ var_names (id (UDataset.mk
        [("link1d2d", 0), ("mesh2d_face_x", 7)] ["nLink1D2D_edge", "Two"])) ∧
        ("mesh2d" = "mesh1d" ∨ "mesh2d" = "mesh2d"))) :=
  set_mesh_preserves_link1d2d id
    (UDataset.mk [("link1d2d", 0), ("mesh2d_face_x", 7)] ["nLink1D2D_edge", "Two"])
    "mesh2d" true rfl

/-- C6 counterexample: `branch` is a valid enumerated cross-section type,
yet `_setup_crosssections` raises NotImplementedError for it whenever a
`crosssections_fn` is supplied, so the raise does not happen only for
invalid types. -/
theorem _setup_crosssections_branch_with_fn_raises :
    _setup_crosssections_dispatch (some "crsdata.geojson") "branch" =
      Except.error "Method branch is not implemented." ∧
    "branch" ∈ valid_crosssections_types := by
  exact ⟨rfl, by decide⟩

/-- C6 (amended): `_setup_crosssections` raises the invalid-option error
exactly when the type is neither `xyz` nor `point` and the
(`crosssections_fn` is None, type = `branch`) combination does not hold; in
particular it never raises for `xyz` or `point`, but does raise for the
valid type `branch` when a `crosssections_fn` is supplied. -/
theorem _setup_crosssections_error_characterization (fn : Option String)
    (t : String) :
    (∃ e, _setup_crosssections_dispatch fn t = Except.error e) ↔
      (¬ (fn = none ∧ t = "branch") ∧ t ≠ "xyz" ∧ t ≠ "point") := by
  unfold _setup_crosssections_dispatch
  split_ifs with h1 h2 h3
  · simp [h1.1, h1.2]
  · simp [h2]
  · simp [h3]
  · simp only [ne_eq]
    exact iff_of_true ⟨_, rfl⟩ ⟨h1, h2, h3⟩

/-- C4 counterexample: a 1D boundary forcing whose time axis ends at 5 while
the model window is [0, 10] only logs the mismatch error and still proceeds
to set the forcing; no exception is raised, so the time-window mismatch is
not fatal in the 1D boundary setup. -/
theorem setup_1dboundary_time_mismatch_only_logged :
    setup_1dboundary (some [0, 5]) 0 10 =
      Except.ok (Boundary1DResult.mk
        ["forcing has different start and end time. Please check the forcing file. support yyyy-mm-dd HH:MM:SS. "]
        true) := by
  rfl

/-- C4 (amended): on a nonempty forcing time axis, the 1D boundary setup
never raises — it returns normally with the forcing set, logging an error
exactly when the axis does not start at tstart and end at tstop — while the
2D boundary setup raises a ValueError exactly when the time-axis span is
shorter than the model window. -/
theorem boundary_time_window_check_spec (times : List Int) (tstart tstop : Int)
    (h : times ≠ []) :
    (∃ r, setup_1dboundary (some times) tstart tstop = Except.ok r ∧
      r.forcing_set = true ∧
      (r.logged_errors = [] ↔
        (times.head h = tstart ∧ times.getLast h = tstop))) ∧
    ((∃ e, setup_2dboundary times tstart tstop = Except.error e) ↔
      times.getLast h - times.head h < tstop - tstart) := by
  obtain ⟨t, ts, rfl⟩ := List.exists_cons_of_ne_nil h
  constructor
  · unfold setup_1dboundary
    dsimp only
    split_ifs with hc
    · exact ⟨_, rfl, rfl, by simpa using hc⟩
    · refine ⟨_, rfl, rfl, ?_⟩
      simp only [List.head_cons]
      constructor
      · intro hfalse
        cases hfalse
      · intro hcon
        exact absurd hcon hc
  · unfold setup_2dboundary
    dsimp only
    split_ifs with hc
    · simpa using hc
    · simp only [List.head_cons]
      constructor
      · rintro ⟨e, he⟩
        cases he
      · intro hcon
        exact absurd hcon hc

/-- C4 amended witness: the time axis [0, 10] exactly covers the window
[0, 10]: the 1D setup logs nothing and sets the forcing, and the 2D setup
does not raise. -/
theorem boundary_time_window_check_spec_witness :
    (∃ r, setup_1dboundary (some [0, 10]) 0 10 = Except.ok r ∧
      r.forcing_set = true ∧
      (r.logged_errors = [] ↔
        (([0, 10] : List Int).head (by decide) = 0 ∧
          ([0, 10] : List Int).getLast (by decide) = 10))) ∧
    ((∃ e, setup_2dboundary [0, 10] 0 10 = Except.error e) ↔
      ([0, 10] : List Int).getLast (by decide) - ([0, 10] : List Int).head (by decide) < 10 - 0) :=
  boundary_time_window_check_spec [0, 10] 0 10 (by decide)

/-- C2: on a model whose mesh has `mesh2d` but no `mesh1d`, `setup_link1d2d`
logs the cannot-setup error yet does not terminate: it continues, invokes
the 2d-to-1d embedded link generator, and stores the generated nonempty link
set in the mesh — contradicting the fail-fast described by its own logged
message and docstring. -/
theorem setup_link1d2d_continues_after_missing_mesh_error :
    ∃ st1 errs warns,
      setup_link1d2d gen_one_link gen_one_link gen_one_link st_mesh2d_only
        "2d_to_1d" "embedded" = Except.ok (st1, errs, warns) ∧
      "cannot setup link1d2d: either mesh1d or mesh2d or both do not exist" ∈ errs ∧
      "link1d2d" ∈ var_names st1.mesh := by
  refine ⟨_, _, _, rfl, ?_, ?_⟩ <;> decide

/-- C7: in the snapping step of `_setup_1dstructures` (ids assumed unique,
as duplicate structure ids are a data inconsistency per the spec), every
input feature with no branch within the snap offset is absent from the
returned set and its original id is logged; every retained structure carries
`structure_branchid` and `structure_chainage` from its nearest branch; and
input count minus logged-dropped count equals output count. -/
theorem setup_1dstructures_drop_log_accounting (feats : List StructureFeature)
    (hnd : (snap_old_ids feats).Nodup) :
    (∀ f ∈ feats, f.branch_hit = none →
      f.structure_id ∈ (_setup_1dstructures_snap feats).2) ∧
    (∀ o ∈ opt_rows (_setup_1dstructures_snap feats).1,
      ∃ f ∈ feats, o.structure_id = f.structure_id ∧
        f.branch_hit = some (o.structure_branchid, o.structure_chainage)) ∧
    (opt_rows (_setup_1dstructures_snap feats).1).length +
      (_setup_1dstructures_snap feats).2.length = feats.length := by
  have hlen_old : (snap_old_ids feats).length = feats.length :=
    List.length_map _ _
  have hlen_new : (snap_new_ids feats).length =
      (feats.filterMap st_of_feature).length := List.length_map _ _
  have hcount := snap_count feats hnd
  have hmemout : ∀ o ∈ feats.filterMap st_of_feature,
      ∃ f ∈ feats, o.structure_id = f.structure_id ∧
        f.branch_hit = some (o.structure_branchid, o.structure_chainage) := by
    intro o ho
    obtain ⟨f, hf, hfo⟩ := List.mem_filterMap.mp ho
    unfold st_of_feature at hfo
    obtain ⟨a, ha, hmk⟩ := Option.map_eq_some'.mp hfo
    subst hmk
    exact ⟨f, hf, rfl, by rw [ha]⟩
  have hdropmem : ∀ f ∈ feats, f.branch_hit = none →
      ¬ f.structure_id ∈ snap_new_ids feats := by
    intro f hf hnone hmem
    obtain ⟨g, hg, hgid, hgsome⟩ := snap_new_ids_subset hmem
    have hnd_map : (feats.map (fun f => f.structure_id)).Nodup := hnd
    have hg_eq : g = f := by
      apply List.inj_on_of_nodup_map (f := fun f => f.structure_id) hnd_map hg hf
      exact hgid
    rw [hg_eq] at hgsome
    exact hgsome hnone
  unfold _setup_1dstructures_snap
  dsimp only
  split_ifs with hzero hne hne
  · -- nothing retained, some rows dropped
    refine ⟨?_, by simp [opt_rows], ?_⟩
    · intro f hf hnone
      exact List.mem_filter.mpr
        ⟨List.mem_map.mpr ⟨f, hf, rfl⟩, by simpa using hdropmem f hf hnone⟩
    · simp only [opt_rows, List.length_nil]
      omega
  · -- nothing retained, no length change: the input must be empty
    refine ⟨?_, by simp [opt_rows], ?_⟩
    · intro f hf hnone
      have hlt := filterMap_lt_of_none hf (by simp [st_of_feature, hnone])
      omega
    · simp only [opt_rows, List.length_nil]
      omega
  · -- retained rows, some rows dropped
    refine ⟨?_, ?_, ?_⟩
    · intro f hf hnone
      exact List.mem_filter.mpr
        ⟨List.mem_map.mpr ⟨f, hf, rfl⟩, by simpa using hdropmem f hf hnone⟩
    · simpa [opt_rows] using hmemout
    · simp only [opt_rows]
      omega
  · -- retained rows, nothing dropped
    refine ⟨?_, ?_, ?_⟩
    · intro f hf hnone
      have hlt := filterMap_lt_of_none hf (by simp [st_of_feature, hnone])
      omega
    · simpa [opt_rows] using hmemout
    · simp only [opt_rows, List.length_nil]
      omega

/-- C7 witness: two structures, one snapped to `branch_1` at chainage 5, one
unsnappable; the latter is dropped and logged, the former keeps its derived
branch and chainage, and 1 output + 1 dropped = 2 inputs. -/
theorem setup_1dstructures_drop_log_accounting_witness :
    (snap_old_ids [StructureFeature.mk "culvert_1" (some ("branch_1", 5)),
      StructureFeature.mk "culvert_2" none]).Nodup ∧
    ((∀ f ∈ [StructureFeature.mk "culvert_1" (some ("branch_1", 5)),
        StructureFeature.mk "culvert_2" none], f.branch_hit = none →
      f.structure_id ∈ (_setup_1dstructures_snap
        [StructureFeature.mk "culvert_1" (some ("branch_1", 5)),
          StructureFeature.mk "culvert_2" none]).2) ∧
    (∀ o ∈ opt_rows (_setup_1dstructures_snap
        [StructureFeature.mk "culvert_1" (some ("branch_1", 5)),
          StructureFeature.mk "culvert_2" none]).1,
      ∃ f ∈ [StructureFeature.mk "culvert_1" (some ("branch_1", 5)),
          StructureFeature.mk "culvert_2" none],
        o.structure_id = f.structure_id ∧
        f.branch_hit = some (o.structure_branchid, o.structure_chainage)) ∧
    (opt_rows (_setup_1dstructures_snap
        [StructureFeature.mk "culvert_1" (some ("branch_1", 5)),
          StructureFeature.mk "culvert_2" none]).1).length +
      (_setup_1dstructures_snap
        [StructureFeature.mk "culvert_1" (some ("branch_1", 5)),
          StructureFeature.mk "culvert_2" none]).2.length =
      ([StructureFeature.mk "culvert_1" (some ("branch_1", 5)),
        StructureFeature.mk "culvert_2" none] : List StructureFeature).length) :=
  ⟨by decide, setup_1dstructures_drop_log_accounting
    [StructureFeature.mk "culvert_1" (some ("branch_1", 5)),
      StructureFeature.mk "culvert_2" none] (by decide)⟩

/-- C1: `setup_manholes` does not always derive the manhole bedlevel from
the minimum connected pipe invert level plus `bedlevel_shift`: because
`bedlevel` is in `_allowed_columns` and the user dataset is merged with
`nearest_merge(..., overwrite=True)`, a user-supplied bedlevel (here 99) is
taken verbatim into the result, overwriting the derived value 3/2 that the
same call computes without a user dataset — contradicting the docstring,
which states the bedlevel is always generated from the invert levels. -/
theorem setup_manholes_user_bedlevel_taken_verbatim :
    (setup_manholes [pipe0] (some [user_manhole0]) (-1/2 : ℚ) 0).map
        (fun m => m.bedlevel) = [99, 3/2] ∧
    (setup_manholes [pipe0] none (-1/2 : ℚ) 0).map
        (fun m => m.bedlevel) = [3/2, 3/2] ∧
    (99 : ℚ) ≠ 3/2 := by
  refine ⟨?_, ?_, by norm_num⟩ <;>
    norm_num [setup_manholes, generate_manholes_on_branches,
      nearest_merge_overwrite, nearest_within, node_invlevs, min_level, distSq,
      pipe0, user_manhole0, List.dedup, List.pwFilter, List.enum,
      List.enumFrom, List.filterMap, List.filter, Prod.ext_iff]

end DflowFM
